import Mathlib

/-!
Verification of the YimuAnnualSummary frontend (yimu-frontend).

This file gives a shallow embedding of the data model and the operations of
`src/yimu-frontend/src/components/FinancialOverview.tsx` and
`src/yimu-frontend/src/components/AnnualSummary.tsx`, and proves properties
of that embedding.

Modelling conventions:
- JavaScript numbers are modelled as `Rat` (exact arithmetic) where fractional
  values occur, and as `Int` where the source only ever holds integers
  (years, page indices, HTTP status codes).
- A value that can be `null`/`undefined` is modelled as an `Option`.
- Asynchronous code is modelled by passing the outcome of the awaited
  operations (the network environment) explicitly as an argument; a rejected
  promise / thrown exception is an explicit constructor of the environment
  type.  `Promise.all` of the two fetches is modelled as a single joint
  outcome: both requests are issued together before either result is
  consumed, and both results are available only at the join.
- The React render of a component is modelled as a function from the
  component state to an abstract description of what is on screen.
-/

namespace Yimu

/- ----------------------------------------------------------------------
Data model: the JSON payload shapes consumed from the backend, translated
from the TypeScript interface `FinancialData` (FinancialOverview.tsx lines
29-119) and from the use of the untyped daily payload (line 1356).
---------------------------------------------------------------------- -/

/-- Shape of `main_income_source` (FinancialOverview.tsx lines 43-48). -/
structure MainIncomeSource where
  source : String
  amount : Rat
  count : Nat
  percentage : Rat
deriving DecidableEq, Repr

/-- Shape of `time_analysis.peak_hour` (lines 50-52); the code guards the
`hour` field against `null`, so it is modelled as optional. -/
structure PeakHour where
  hour : Option Int
deriving DecidableEq, Repr

/-- Shape of `time_analysis` (lines 49-62). -/
structure TimeAnalysis where
  peak_hour : Option PeakHour
  peak_weekday : Option String
  peak_period : Option String
  peak_season : Option String
deriving DecidableEq, Repr

/-- Shape of `behavior_analysis` (lines 63-68). -/
structure BehaviorAnalysis where
  consumption_type : Option String
  type_description : Option String
  impulse_days : Nat
  stability_score : Option Rat
deriving DecidableEq, Repr

/-- Shape of `growth_analysis` (lines 69-75). -/
structure GrowthAnalysis where
  peak_income_month : Option String
  savings_trend : Option String
  consumption_upgrade : Option String
deriving DecidableEq, Repr

/-- Shape of an entry of `events_analysis.special_events` (lines 77-80). -/
structure SpecialEvent where
  event : String
  multiplier : Rat
deriving DecidableEq, Repr

/-- Shape of an entry of `events_analysis.top_expense_days` (lines 84-88). -/
structure TopExpenseDay where
  month : Nat
  day : Nat
  amount : Rat
deriving DecidableEq, Repr

/-- Shape of `events_analysis` (lines 76-89). -/
structure EventsAnalysis where
  special_events : Option (List SpecialEvent)
  weekend_vs_workday : Option String
  top_expense_days : Option (List TopExpenseDay)
deriving DecidableEq, Repr

/-- Shape of an entry of `account_usage` (lines 90-94). -/
structure AccountUsage where
  account : String
  usage_count : Nat
  percentage : Rat
deriving DecidableEq, Repr

/-- Shape of an entry of `location_stats` (lines 95-98). -/
structure LocationStat where
  location : String
  percentage : Rat
deriving DecidableEq, Repr

/-- Shape of an entry of `category_expenses` (lines 99-102). -/
structure CategoryExpense where
  category : String
  expense : Rat
deriving DecidableEq, Repr

/-- Shape of `most_frequent_item` (lines 103-106). -/
structure MostFrequentItem where
  note : String
  count : Nat
deriving DecidableEq, Repr

/-- Shape of `max_single_expense_data` / `max_single_income_data`
(lines 107-118). -/
structure ExtremeTransaction where
  amount : Rat
  date : String
  note : String
  category : String
deriving DecidableEq, Repr

/-- The `FinancialData` interface (FinancialOverview.tsx lines 29-119):
the financial-overview payload delivered by the backend. -/
structure FinancialData where
  annual_total_income : Rat
  annual_total_expense : Rat
  annual_net_savings : Rat
  annual_savings_rate : Rat
  year_end_total_assets : Rat
  year_end_total_liabilities : Rat
  year_end_net_assets : Rat
  avg_monthly_income : Rat
  avg_monthly_expense : Rat
  avg_daily_expense : Rat
  annual_total_transactions : Nat
  max_single_income : Rat
  max_single_expense : Rat
  main_income_source : Option MainIncomeSource
  time_analysis : Option TimeAnalysis
  behavior_analysis : Option BehaviorAnalysis
  growth_analysis : Option GrowthAnalysis
  events_analysis : Option EventsAnalysis
  account_usage : Option (List AccountUsage)
  location_stats : Option (List LocationStat)
  category_expenses : Option (List CategoryExpense)
  most_frequent_item : Option MostFrequentItem
  max_single_expense_data : Option ExtremeTransaction
  max_single_income_data : Option ExtremeTransaction
deriving DecidableEq, Repr

/-- One record of the daily payload, as consumed by the heat-map lookup
(FinancialOverview.tsx lines 1356-1361): a date string `YYYY-MM-DD` and the
day's income/expense amounts and counts. The `date` field is optional
because the fallback object built at line 1356 carries no `date`. -/
structure DayRecord where
  date : Option String
  income : Rat
  expense : Rat
  income_count : Nat
  expense_count : Nat
deriving DecidableEq, Repr

/-- The daily payload (`dailyData` state, typed `any` in the source): the
object whose `daily_data` field holds the list of per-day records. -/
structure DailyData where
  daily_data : List DayRecord
deriving DecidableEq, Repr

/- ----------------------------------------------------------------------
Component state and network model of FinancialOverview.
---------------------------------------------------------------------- -/

/-- The four `useState` fields of `FinancialOverview`
(FinancialOverview.tsx lines 127-130). -/
structure CompState where
  financialData : Option FinancialData
  dailyData : Option DailyData
  loading : Bool
  error : Option String
deriving DecidableEq, Repr

/-- The initial component state (lines 127-130): no payloads, `loading`
initially `true`, no error. -/
def initCompState : CompState :=
  { financialData := none, dailyData := none, loading := true, error := none }

/-- An HTTP method; every `fetch` call in the source uses the default
method, GET. -/
inductive Method
  | get
deriving DecidableEq, Repr

/-- An HTTP request: a method and a URL. -/
structure Request where
  method : Method
  url : String
deriving DecidableEq, Repr

/-- URL of the financial-overview endpoint for a year, translated from the
template literal at FinancialOverview.tsx line 139 / 172. -/
def financialOverviewUrl (year : Int) : String :=
  "http://localhost:8000/api/financial-overview?year=" ++ toString year

/-- URL of the daily-data endpoint for a year, translated from the template
literal at FinancialOverview.tsx line 140. -/
def dailyDataUrl (year : Int) : String :=
  "http://localhost:8000/api/daily-data?year=" ++ toString year

/-- The two requests issued together by `fetchData` for a selected year
(the `Promise.all` of the two `fetch` calls, lines 138-141). -/
def fetchRequests (selectedYear : Int) : List Request :=
  [ { method := Method.get, url := financialOverviewUrl selectedYear },
    { method := Method.get, url := dailyDataUrl selectedYear } ]

/-- Outcome of the two parsed bodies (the second `Promise.all`, lines
147-150): either some `.json()` call rejected with an error message, or
both bodies parsed. -/
inductive ParseOutcome
  | parseError (msg : String)
  | parsed (fin : FinancialData) (daily : DailyData)
deriving DecidableEq, Repr

/-- Environment of one `fetchData` run: either the `Promise.all` of the two
fetches rejected (a network error, line 156 catch), or both responses
arrived with their `ok` flags, statuses and body-parse outcome. The `msg`
carried by a failure constructor is the string the catch block computes
from the thrown value (`err instanceof Error ? err.message : '获取数据失败'`,
line 158). -/
inductive FetchEnv
  | networkError (msg : String)
  | responses (finOk : Bool) (finStatus : Nat) (dailyOk : Bool) (dailyStatus : Nat)
      (bodies : ParseOutcome)
deriving DecidableEq, Repr

/-- The environment represents a fully successful run: both responses ok and
both bodies parsed. -/
def FetchEnv.success : FetchEnv → Bool
  | FetchEnv.responses true _ true _ (ParseOutcome.parsed _ _) => true
  | _ => false

/-- The error message thrown at line 144 when at least one response is not
ok: the template literal with both statuses. -/
def httpErrorMsg (finStatus dailyStatus : Nat) : String :=
  "HTTP error! financial: " ++ toString finStatus ++ ", daily: " ++ toString dailyStatus

/-- The state right after `setLoading(true)` at the start of `fetchData`
(line 135): this is the component state during the whole time the two
fetches are in flight, since no other `set` call happens before the join. -/
def inFlightState (s : CompState) : CompState :=
  { s with loading := true }

/-- One run of `fetchData` (FinancialOverview.tsx lines 133-162) from state
`s` under network environment `env`, returning the state after the
`finally` block. Translated clause by clause:
`setLoading(true)`; `Promise.all` of the two fetches; throw on `!ok` with
the two statuses; `Promise.all` of the two `.json()`; on success
`setFinancialData`, `setDailyData`, `setError(null)`; on any thrown error
`setError(message)`; `finally setLoading(false)`. -/
def fetchData (s : CompState) (env : FetchEnv) : CompState :=
  match env with
  | FetchEnv.networkError msg =>
      { s with error := some msg, loading := false }
  | FetchEnv.responses finOk finStatus dailyOk dailyStatus bodies =>
      if !finOk || !dailyOk then
        { s with error := some (httpErrorMsg finStatus dailyStatus), loading := false }
      else
        match bodies with
        | ParseOutcome.parseError msg =>
            { s with error := some msg, loading := false }
        | ParseOutcome.parsed fin daily =>
            { s with financialData := some fin, dailyData := some daily,
                     error := none, loading := false }

/- ----------------------------------------------------------------------
The retry helper fetchFinancialData (FinancialOverview.tsx lines 167-183).
---------------------------------------------------------------------- -/

/-- The year used by `fetchFinancialData`: the JavaScript expression
`targetYear || new Date().getFullYear() - 1` (line 171). `targetYear` is
optional; by JavaScript truthiness a passed year of `0` is falsy and also
selects the default, the previous calendar year. -/
def retryYear (targetYear : Option Int) (currentYear : Int) : Int :=
  match targetYear with
  | none => currentYear - 1
  | some y => if y = 0 then currentYear - 1 else y

/-- The single request issued by `fetchFinancialData` (line 172): a GET to
the financial-overview endpoint only. -/
def retryRequests (targetYear : Option Int) (currentYear : Int) : List Request :=
  [ { method := Method.get, url := financialOverviewUrl (retryYear targetYear currentYear) } ]

/-- Environment of one `fetchFinancialData` run: the fetch rejected, or a
response arrived with its `ok` flag and body-parse outcome. -/
inductive RetryEnv
  | networkError (msg : String)
  | response (ok : Bool) (body : Except String FinancialData)
deriving Repr

/-- One run of `fetchFinancialData` (lines 167-183) from state `s` under
environment `env`. Translated clause by clause: `setLoading(true)`; one
fetch; on `!ok` throw `new Error('Failed to fetch financial data')`; parse;
`setFinancialData(data)`; on a thrown error `setError(message)` (line 179,
with fallback `'Unknown error'`); `finally setLoading(false)`. Note that
the success path updates neither `error` nor `dailyData`. -/
def fetchFinancialData (s : CompState) (env : RetryEnv) : CompState :=
  match env with
  | RetryEnv.networkError msg =>
      { s with error := some msg, loading := false }
  | RetryEnv.response ok body =>
      if !ok then
        { s with error := some "Failed to fetch financial data", loading := false }
      else
        match body with
        | Except.error msg => { s with error := some msg, loading := false }
        | Except.ok data => { s with financialData := some data, loading := false }

/- ----------------------------------------------------------------------
Rendering of FinancialOverview (lines 197-234 and the content body).
---------------------------------------------------------------------- -/

/-- Abstract description of what `FinancialOverview` renders: the spinner
(loading branch, lines 197-207), the blocking full-screen error message
with its text and retry button (lines 209-224), the no-data placeholder
(lines 226-234), or the data content. -/
inductive Screen
  | spinner
  | errorScreen (msg : String)
  | noData
  | content (fd : FinancialData)
deriving DecidableEq, Repr

/-- The render function of `FinancialOverview` as a function of its state:
the early-return chain `if (loading) ... if (error) ... if (!financialData)
...` followed by the data content. -/
def render (s : CompState) : Screen :=
  if s.loading then Screen.spinner
  else
    match s.error with
    | some msg => Screen.errorScreen msg
    | none =>
        match s.financialData with
        | none => Screen.noData
        | some fd => Screen.content fd

/- ----------------------------------------------------------------------
Heat-map day cells (FinancialOverview.tsx lines 1356-1431).
---------------------------------------------------------------------- -/

/-- JavaScript `x || 0` on a number: `0` (and only `0`, in this exact
model) is falsy, so the expression is the identity on `Rat`. -/
def jsOrZero (q : Rat) : Rat :=
  if q = 0 then 0 else q

/-- The fallback day object of line 1356 (`|| { income: 0, expense: 0,
income_count: 0, expense_count: 0 }`). -/
def fallbackDayRecord : DayRecord :=
  { date := none, income := 0, expense := 0, income_count := 0, expense_count := 0 }

/-- The lookup `dailyData?.daily_data?.find((d) => d.date === dateStr) ||
fallback` of line 1356. -/
def dayDataLookup (dd : Option DailyData) (dateStr : String) : DayRecord :=
  match dd with
  | none => fallbackDayRecord
  | some d => (d.daily_data.find? (fun r => r.date == some dateStr)).getD fallbackDayRecord

/-- `const incomeAmount = dayData.income || 0` (line 1365). -/
def incomeAmountOf (r : DayRecord) : Rat := jsOrZero r.income

/-- `const expenseAmount = dayData.expense || 0` (line 1366). -/
def expenseAmountOf (r : DayRecord) : Rat := jsOrZero r.expense

/-- `const incomeRatio = totalAmount > 0 ? incomeAmount / totalAmount : 0`
(line 1372), with `totalAmount = incomeAmount + expenseAmount` (line 1367). -/
def incomeRatio (incomeAmount expenseAmount : Rat) : Rat :=
  let totalAmount := incomeAmount + expenseAmount
  if totalAmount > 0 then incomeAmount / totalAmount else 0

/-- `const expenseRatio = totalAmount > 0 ? expenseAmount / totalAmount : 0`
(line 1373). -/
def expenseRatio (incomeAmount expenseAmount : Rat) : Rat :=
  let totalAmount := incomeAmount + expenseAmount
  if totalAmount > 0 then expenseAmount / totalAmount else 0

/-- Height (as a percentage number) of the green income bar in a day cell:
`height: ${incomeRatio * 100}%` (line 1415). -/
def incomeBarHeightPct (incomeAmount expenseAmount : Rat) : Rat :=
  incomeRatio incomeAmount expenseAmount * 100

/-- Height (as a percentage number) of the red expense bar in a day cell:
`height: ${expenseRatio * 100}%` (line 1427). -/
def expenseBarHeightPct (incomeAmount expenseAmount : Rat) : Rat :=
  expenseRatio incomeAmount expenseAmount * 100

/- ----------------------------------------------------------------------
Currency formatting (FinancialOverview.tsx lines 185-191) and the annual
summary strings bound at lines 1476-1487.

`Intl.NumberFormat('zh-CN', { style: 'currency', currency: 'CNY',
minimumFractionDigits: 2 })` is a host function; it is modelled from the
ECMAScript Intl specification for these options: round the amount to 2
fraction digits (CNY has 2 currency digits, so both the minimum and the
maximum number of fraction digits is 2) with half-away-from-zero rounding,
prefix the sign and the currency symbol ¥, and group the integer digits in
threes. The model is a deterministic function of the amount alone, as the
options are constant.
---------------------------------------------------------------------- -/

/-- Rounding half away from zero, the default `halfExpand` rounding mode of
`Intl.NumberFormat`. -/
def roundHalfExpand (q : Rat) : Int :=
  if 0 ≤ q then ⌊q + 1 / 2⌋ else -⌊1 / 2 - q⌋

/-- Insert a `,` after every three digits, processing a digit list given in
reverse order; `k` counts the digits already emitted in the current group. -/
def groupRevAux : List Char → Nat → List Char
  | [], _ => []
  | c :: cs, k =>
      if k = 3 then ',' :: c :: groupRevAux cs 1
      else c :: groupRevAux cs (k + 1)

/-- Group the decimal digits of an integer-part string in threes, as the
`zh-CN` number formatting does. -/
def groupThousands (s : String) : String :=
  String.mk (groupRevAux s.data.reverse 0).reverse

/-- Render a value below 100 as exactly two decimal digits. -/
def padTwo (f : Nat) : String :=
  String.mk [Nat.digitChar (f / 10 % 10), Nat.digitChar (f % 10)]

/-- `formatCurrency` (FinancialOverview.tsx lines 185-191): the zh-CN CNY
currency string of an amount. -/
def formatCurrency (amount : Rat) : String :=
  let cents := roundHalfExpand (amount * 100)
  let n := cents.natAbs
  (if cents < 0 then "-" else "") ++ "¥" ++ groupThousands (toString (n / 100))
    ++ "." ++ padTwo (n % 100)

/-- The annual-total-income string bound in the year summary block
(line 1476): `formatCurrency(financialData.annual_total_income)`. -/
def displayedAnnualIncome (fd : FinancialData) : String :=
  formatCurrency fd.annual_total_income

/-- The annual-total-expense string bound at line 1480. -/
def displayedAnnualExpense (fd : FinancialData) : String :=
  formatCurrency fd.annual_total_expense

/-- The annual-net-savings string bound at line 1487. -/
def displayedNetSavings (fd : FinancialData) : String :=
  formatCurrency fd.annual_net_savings

/- ----------------------------------------------------------------------
Page navigation of AnnualSummary (AnnualSummary.tsx lines 39-76, 757-766).
---------------------------------------------------------------------- -/

/-- The page list (AnnualSummary.tsx line 45). -/
def pages : List String := ["welcome", "financial-overview"]

/-- Navigation state: the `currentPage` state field and the value of the
sessionStorage key `yimu-current-page` (an absent key is `none`). -/
structure NavState where
  currentPage : Int
  storage : Option String
deriving DecidableEq, Repr

/-- A navigation input event: a wheel event with its `deltaY`, or a keydown
event with its `key` string. -/
inductive NavEvent
  | wheel (deltaY : Rat)
  | key (key : String)
deriving DecidableEq, Repr

/-- `handleWheel` (AnnualSummary.tsx lines 48-58). -/
def handleWheel (s : NavState) (deltaY : Rat) : NavState :=
  if deltaY > 0 ∧ s.currentPage < (pages.length : Int) - 1 then
    let newPage := s.currentPage + 1
    { currentPage := newPage, storage := some (toString newPage) }
  else if deltaY < 0 ∧ s.currentPage > 0 then
    let newPage := s.currentPage - 1
    { currentPage := newPage, storage := some (toString newPage) }
  else s

/-- `handleKeyDown` (AnnualSummary.tsx lines 62-72). -/
def handleKeyDown (s : NavState) (key : String) : NavState :=
  if key = "ArrowDown" ∧ s.currentPage < (pages.length : Int) - 1 then
    let newPage := s.currentPage + 1
    { currentPage := newPage, storage := some (toString newPage) }
  else if key = "ArrowUp" ∧ s.currentPage > 0 then
    let newPage := s.currentPage - 1
    { currentPage := newPage, storage := some (toString newPage) }
  else s

/-- One step of the navigation state machine: dispatch an event to its
handler. -/
def navStep (s : NavState) (e : NavEvent) : NavState :=
  match e with
  | NavEvent.wheel d => handleWheel s d
  | NavEvent.key k => handleKeyDown s k

/-- The initial navigation state with page index 0 and a given initial
storage content. -/
def navInit (storage0 : Option String) : NavState :=
  { currentPage := 0, storage := storage0 }

/-- Run the navigation state machine from the initial page index 0 over a
sequence of events. -/
def navRun (storage0 : Option String) (evs : List NavEvent) : NavState :=
  evs.foldl navStep (navInit storage0)

/-- An event that requests a downward page step: a wheel event with
positive `deltaY`, or an ArrowDown keydown. -/
def isDownEvent : NavEvent → Bool
  | NavEvent.wheel d => decide (d > 0)
  | NavEvent.key k => k == "ArrowDown"

/-- An event that requests an upward page step: a wheel event with negative
`deltaY`, or an ArrowUp keydown. -/
def isUpEvent : NavEvent → Bool
  | NavEvent.wheel d => decide (d < 0)
  | NavEvent.key k => k == "ArrowUp"

/- ----------------------------------------------------------------------
Page selection and rendering (AnnualSummary.tsx lines 39-42, 757-766).
---------------------------------------------------------------------- -/

/-- A JavaScript number that is either an integer or NaN, as produced by
`parseInt`. -/
inductive JsNum
  | num (n : Int)
  | nan
deriving DecidableEq, Repr

/-- `parseInt(s, 10)`, modelled from the ECMAScript specification: skip
leading whitespace, read an optional sign, then the longest prefix of
decimal digits; NaN when that prefix is empty. -/
def jsParseInt (s : String) : JsNum :=
  let t := s.data.dropWhile Char.isWhitespace
  let signAndRest : Int × List Char :=
    match t with
    | '-' :: r => (-1, r)
    | '+' :: r => (1, r)
    | r => (1, r)
  let digits := signAndRest.2.takeWhile Char.isDigit
  if digits = [] then JsNum.nan
  else
    JsNum.num (signAndRest.1 *
      (digits.foldl (fun acc c => acc * 10 + (c.toNat - '0'.toNat)) 0 : Nat))

/-- The `currentPage` initializer (AnnualSummary.tsx lines 39-42):
`savedPage ? parseInt(savedPage, 10) : 0`, where `savedPage` is the
sessionStorage entry (`none` models a missing key, and the empty string is
falsy). -/
def initCurrentPage (savedPage : Option String) : JsNum :=
  match savedPage with
  | none => JsNum.num 0
  | some s => if s = "" then JsNum.num 0 else jsParseInt s

/-- JavaScript array indexing `pages[currentPage]`: `undefined` (`none`)
for NaN, negative, or out-of-range indices. -/
def pageAt (i : JsNum) : Option String :=
  match i with
  | JsNum.nan => none
  | JsNum.num n => if 0 ≤ n then pages[n.toNat]? else none

/-- The page value a render of AnnualSummary can produce. -/
inductive Page
  | welcomePage
  | financialOverviewPage
deriving DecidableEq, Repr

/-- `renderCurrentPage` (AnnualSummary.tsx lines 757-766): the switch on
`pages[currentPage]` with cases `'welcome'` and `'financial-overview'` and
a default returning the welcome page. -/
def renderCurrentPage (i : JsNum) : Page :=
  match pageAt i with
  | some p =>
      if p = "welcome" then Page.welcomePage
      else if p = "financial-overview" then Page.financialOverviewPage
      else Page.welcomePage
  | none => Page.welcomePage

/- ----------------------------------------------------------------------
The year-selection effect (FinancialOverview.tsx lines 132-165): the
`useEffect` with dependency list `[selectedYear]` runs `fetchData` on mount
and exactly on those re-renders where `selectedYear` differs from its value
at the previous render.
---------------------------------------------------------------------- -/

/-- Number of year changes along a sequence of rendered `selectedYear`
values, where `prev` is the dependency value of the previous render
(`none` before the first render, so the mount counts as a change). -/
def countYearChanges : Option Int → List Int → Nat
  | _, [] => 0
  | prev, y :: ys => (if prev = some y then 0 else 1) + countYearChanges (some y) ys

/-- The request batches issued by the effect along a sequence of rendered
`selectedYear` values: one `fetchRequests` pair per render at which the
dependency changed. -/
def effectFetchCalls : Option Int → List Int → List (List Request)
  | _, [] => []
  | prev, y :: ys =>
      if prev = some y then effectFetchCalls (some y) ys
      else fetchRequests y :: effectFetchCalls (some y) ys

/-- The state of the whole page: the navigation state of `AnnualSummary`
together with the component state of `FinancialOverview`. -/
structure AppState where
  nav : NavState
  comp : CompState
deriving DecidableEq, Repr

/-- `fetchData` lifted to the whole page: it acts on the
`FinancialOverview` state only. -/
def appFetchData (a : AppState) (env : FetchEnv) : AppState :=
  { a with comp := fetchData a.comp env }

/- ----------------------------------------------------------------------
Calendar arithmetic for the heat-map month-label row (FinancialOverview.tsx
lines 1282-1298). JavaScript `Date` values are modelled by their day count
from the Unix epoch (the source only ever adds whole days, and the host
timezone has no daylight saving). The civil-from-days and days-from-civil
conversions are the standard proleptic-Gregorian algorithms.
---------------------------------------------------------------------- -/

/-- Days from the Unix epoch of a proleptic-Gregorian civil date
`(y, m, d)` with `m` in 1..12. -/
def daysFromCivil (y m d : Int) : Int :=
  let y2 := if m ≤ 2 then y - 1 else y
  let era := (if 0 ≤ y2 then y2 else y2 - 399) / 400
  let yoe := y2 - era * 400
  let mp := (m + 9) % 12
  let doy := (153 * mp + 2) / 5 + d - 1
  let doe := yoe * 365 + yoe / 4 - yoe / 100 + doy
  era * 146097 + doe - 719468

/-- Civil date `(y, m, d)` of a day count from the Unix epoch. -/
def civilFromDays (z : Int) : Int × Int × Int :=
  let z2 := z + 719468
  let era := (if 0 ≤ z2 then z2 else z2 - 146096) / 146097
  let doe := z2 - era * 146097
  let yoe := (doe - doe / 1460 + doe / 36524 - doe / 146096) / 365
  let y := yoe + era * 400
  let doy := doe - (365 * yoe + yoe / 4 - yoe / 100)
  let mp := (5 * doy + 2) / 153
  let d := doy - (153 * mp + 2) / 5 + 1
  let m := if mp < 10 then mp + 3 else mp - 9
  (if m ≤ 2 then y + 1 else y, m, d)

/-- `Date.prototype.getDay` of a day count: 1970-01-01 was a Thursday (4). -/
def jsGetDay (z : Int) : Int := (z + 4) % 7

/-- `Date.prototype.getFullYear` of a day count. -/
def jsGetFullYear (z : Int) : Int := (civilFromDays z).1

/-- `Date.prototype.getMonth` of a day count (0-based months). -/
def jsGetMonth (z : Int) : Int := (civilFromDays z).2.1 - 1

/-- `Date.prototype.getDate` of a day count (day of month, 1-based). -/
def jsGetDate (z : Int) : Int := (civilFromDays z).2.2

/-- The day count of `new Date(year, monthIndex, day)` with a 0-based
`monthIndex` and an arbitrary (normalizing) `day`, as the source constructs
dates. -/
def jsDateDays (year monthIndex day : Int) : Int :=
  daysFromCivil year (monthIndex + 1) 1 + (day - 1)

/-- Day count of the first cell (the Sunday) of week column `weekIndex` of
the label row: `new Date(2025, 0, 1 + weekIndex * 7 - startDayOfWeek)`
(FinancialOverview.tsx line 1288), with `startDayOfWeek` the weekday of
2025-01-01 (line 1285). -/
def labelWeekStart (weekIndex : Nat) : Int :=
  let startDate := jsDateDays 2025 0 1
  let startDayOfWeek := jsGetDay startDate
  jsDateDays 2025 0 (1 + (weekIndex : Int) * 7 - startDayOfWeek)

/-- The month label of week column `weekIndex` (FinancialOverview.tsx lines
1282-1305): scan the 7 days of the week in order and label with
`` `${month+1}月` `` at the first day whose year is 2025 and whose
day-of-month is 1, else leave the label empty. The surrounding component
receives `selectedYear`, but this computation hard-codes the year 2025 and
ignores `selectedYear`. -/
def monthLabelRow (selectedYear : Int) (weekIndex : Nat) : String :=
  let _ := selectedYear
  let weekStartDate := labelWeekStart weekIndex
  match (List.range 7).find? (fun o =>
      jsGetFullYear (weekStartDate + (o : Int)) == 2025
        && jsGetDate (weekStartDate + (o : Int)) == 1) with
  | some o => toString (jsGetMonth (weekStartDate + (o : Int)) + 1) ++ "月"
  | none => ""

/-- The week column `weekIndex` contains the first day of month `m` of the
fixed year 2025. -/
def weekContainsFirstOfMonth2025 (weekIndex m : Nat) : Prop :=
  ∃ o ∈ List.range 7, civilFromDays (labelWeekStart weekIndex + (o : Int)) = (2025, (m : Int), 1)

instance (weekIndex m : Nat) : Decidable (weekContainsFirstOfMonth2025 weekIndex m) :=
  List.decidableBEx _ _

/-- A concrete financial-overview payload used to instantiate theorems on a
closed input. -/
def sampleFinancialData : FinancialData :=
  { annual_total_income := 100, annual_total_expense := 40, annual_net_savings := 60,
    annual_savings_rate := 3 / 5, year_end_total_assets := 0,
    year_end_total_liabilities := 0, year_end_net_assets := 0,
    avg_monthly_income := 0, avg_monthly_expense := 0, avg_daily_expense := 0,
    annual_total_transactions := 0, max_single_income := 0, max_single_expense := 0,
    main_income_source := none, time_analysis := none, behavior_analysis := none,
    growth_analysis := none, events_analysis := none, account_usage := none,
    location_stats := none, category_expenses := none, most_frequent_item := none,
    max_single_expense_data := none, max_single_income_data := none }

/- ----------------------------------------------------------------------
Helper lemmas.
---------------------------------------------------------------------- -/

/-- The page list has exactly two entries, so the largest page index is 1. -/
theorem pages_length_int : (pages.length : Int) - 1 = 1 := by
  norm_num [pages]

/-- A navigation step preserves the page-index bounds. -/
theorem navStep_bounds (s : NavState) (e : NavEvent)
    (h0 : 0 ≤ s.currentPage) (h1 : s.currentPage ≤ 1) :
    0 ≤ (navStep s e).currentPage ∧ (navStep s e).currentPage ≤ 1 := by
  cases e with
  | wheel d =>
      simp only [navStep, handleWheel, pages_length_int]
      split_ifs with hA hB
      · rcases hA with ⟨-, hA2⟩
        constructor <;> simp <;> omega
      · rcases hB with ⟨-, hB2⟩
        constructor <;> simp <;> omega
      · exact ⟨h0, h1⟩
  | key k =>
      simp only [navStep, handleKeyDown, pages_length_int]
      split_ifs with hA hB
      · rcases hA with ⟨-, hA2⟩
        constructor <;> simp <;> omega
      · rcases hB with ⟨-, hB2⟩
        constructor <;> simp <;> omega
      · exact ⟨h0, h1⟩

/-- Running the navigation machine from any in-bounds state stays in
bounds. -/
theorem navFold_bounds (evs : List NavEvent) :
    ∀ s : NavState, 0 ≤ s.currentPage → s.currentPage ≤ 1 →
      0 ≤ (evs.foldl navStep s).currentPage ∧ (evs.foldl navStep s).currentPage ≤ 1 := by
  induction evs with
  | nil => intro s h0 h1; exact ⟨h0, h1⟩
  | cons e evs ih =>
      intro s h0 h1
      have h := navStep_bounds s e h0 h1
      simpa using ih (navStep s e) h.1 h.2

/-- A down request in a non-final page increments the page and writes the
new index to storage. -/
theorem navStep_down (s : NavState) (e : NavEvent)
    (hd : isDownEvent e = true) (hlt : s.currentPage < (pages.length : Int) - 1) :
    navStep s e =
      { currentPage := s.currentPage + 1, storage := some (toString (s.currentPage + 1)) } := by
  cases e with
  | wheel d =>
      simp only [isDownEvent, decide_eq_true_eq] at hd
      simp only [navStep, handleWheel]
      rw [if_pos ⟨hd, hlt⟩]
  | key k =>
      have hk : k = "ArrowDown" := by simpa [isDownEvent] using hd
      simp only [navStep, handleKeyDown]
      rw [if_pos ⟨hk, hlt⟩]

/-- An up request in a non-initial page decrements the page and writes the
new index to storage. -/
theorem navStep_up (s : NavState) (e : NavEvent)
    (hu : isUpEvent e = true) (hgt : s.currentPage > 0) :
    navStep s e =
      { currentPage := s.currentPage - 1, storage := some (toString (s.currentPage - 1)) } := by
  cases e with
  | wheel d =>
      simp only [isUpEvent, decide_eq_true_eq] at hu
      simp only [navStep, handleWheel]
      rw [if_neg (fun hc => absurd hc.1 (asymm hu)), if_pos ⟨hu, hgt⟩]
  | key k =>
      have hk : k = "ArrowUp" := by simpa [isUpEvent] using hu
      simp only [navStep, handleKeyDown]
      rw [if_neg (fun hc => by simp [hk] at hc), if_pos ⟨hk, hgt⟩]

/-- Any event that is neither an enabled down request nor an enabled up
request leaves the navigation state unchanged. -/
theorem navStep_other (s : NavState) (e : NavEvent)
    (h : ¬ ((isDownEvent e = true ∧ s.currentPage < (pages.length : Int) - 1) ∨
            (isUpEvent e = true ∧ s.currentPage > 0))) :
    navStep s e = s := by
  push_neg at h
  obtain ⟨hd, hu⟩ := h
  cases e with
  | wheel d =>
      simp only [navStep, handleWheel]
      rw [if_neg, if_neg]
      · rintro ⟨hd2, hlt2⟩
        exact absurd hlt2 (not_lt.mpr (hu (by simpa [isUpEvent] using hd2)))
      · rintro ⟨hd1, hlt1⟩
        exact absurd hlt1 (not_lt.mpr (hd (by simpa [isDownEvent] using hd1)))
  | key k =>
      simp only [navStep, handleKeyDown]
      rw [if_neg, if_neg]
      · rintro ⟨hk2, hlt2⟩
        exact absurd hlt2 (not_lt.mpr (hu (by simp [isUpEvent, hk2])))
      · rintro ⟨hk1, hlt1⟩
        exact absurd hlt1 (not_lt.mpr (hd (by simp [isDownEvent, hk1])))

/- ----------------------------------------------------------------------
Claims.
---------------------------------------------------------------------- -/

/-- C1: for every year-selection event, `fetchData` issues exactly two
requests together (one to the financial-overview endpoint, one to the
daily-data endpoint); while the pair is in flight the loading flag is true,
the render shows only the spinner and neither payload has been bound; the
payloads are bound to state only when both responses are ok and both bodies
parsed, and then they hold exactly the parsed bodies. -/
theorem fetchData_parallel_pair (selectedYear : Int) (s : CompState) (env : FetchEnv) :
    fetchRequests selectedYear =
      [ { method := Method.get, url := financialOverviewUrl selectedYear },
        { method := Method.get, url := dailyDataUrl selectedYear } ]
    ∧ (fetchRequests selectedYear).length = 2
    ∧ (inFlightState s).loading = true
    ∧ render (inFlightState s) = Screen.spinner
    ∧ (inFlightState s).financialData = s.financialData
    ∧ (inFlightState s).dailyData = s.dailyData
    ∧ (FetchEnv.success env = false →
        (fetchData s env).financialData = s.financialData ∧
          (fetchData s env).dailyData = s.dailyData)
    ∧ (∀ finStatus dailyStatus fin daily,
        env = FetchEnv.responses true finStatus true dailyStatus
            (ParseOutcome.parsed fin daily) →
          (fetchData s env).financialData = some fin ∧
            (fetchData s env).dailyData = some daily) := by
  refine ⟨rfl, rfl, rfl, rfl, rfl, rfl, ?_, ?_⟩
  · intro hfail
    cases env with
    | networkError msg => simp [fetchData]
    | responses finOk finStatus dailyOk dailyStatus bodies =>
        cases finOk <;> cases dailyOk <;> cases bodies <;>
          simp_all [fetchData, FetchEnv.success]
  · intro finStatus dailyStatus fin daily henv
    subst henv
    simp [fetchData]

/-- C1 witness: the general theorem applied at a concrete year, state and
successful environment. -/
theorem fetchData_parallel_pair_witness :
    (fetchData initCompState
        (FetchEnv.responses true 200 true 200
          (ParseOutcome.parsed sampleFinancialData { daily_data := [] }))).financialData
      = some sampleFinancialData := by
  have h := fetchData_parallel_pair 2025 initCompState
    (FetchEnv.responses true 200 true 200
      (ParseOutcome.parsed sampleFinancialData { daily_data := [] }))
  exact (h.2.2.2.2.2.2.2 200 200 sampleFinancialData { daily_data := [] } rfl).1

/-- C2: after a `fetchData` run, the error state is non-null exactly when
the run was not fully successful (a response not ok, or a fetch/parse step
threw); on that error path neither payload is updated; whenever the final
state carries an error the component renders the blocking error screen
with that text; and the final loading flag is always false. -/
theorem fetchData_error_iff (s : CompState) (env : FetchEnv) :
    ((fetchData s env).error ≠ none ↔ FetchEnv.success env = false)
    ∧ (FetchEnv.success env = false →
        (fetchData s env).financialData = s.financialData ∧
          (fetchData s env).dailyData = s.dailyData)
    ∧ (∀ msg, (fetchData s env).error = some msg →
        render (fetchData s env) = Screen.errorScreen msg)
    ∧ (fetchData s env).loading = false := by
  refine ⟨?_, ?_, ?_, ?_⟩
  · cases env with
    | networkError msg => simp [fetchData, FetchEnv.success]
    | responses finOk finStatus dailyOk dailyStatus bodies =>
        cases finOk <;> cases dailyOk <;> cases bodies <;>
          simp_all [fetchData, FetchEnv.success]
  · intro hfail
    cases env with
    | networkError msg => simp [fetchData]
    | responses finOk finStatus dailyOk dailyStatus bodies =>
        cases finOk <;> cases dailyOk <;> cases bodies <;>
          simp_all [fetchData, FetchEnv.success]
  · intro msg hmsg
    cases env with
    | networkError m =>
        simp only [fetchData] at hmsg ⊢
        simp_all [render]
    | responses finOk finStatus dailyOk dailyStatus bodies =>
        cases finOk <;> cases dailyOk <;> cases bodies <;>
          simp_all [fetchData, render]
  · cases env with
    | networkError msg => simp [fetchData]
    | responses finOk finStatus dailyOk dailyStatus bodies =>
        cases finOk <;> cases dailyOk <;> cases bodies <;>
          simp_all [fetchData]

/-- C2 witness: a run with a failing daily response yields a non-null error
holding both statuses, untouched payloads, the error screen, and a cleared
loading flag. -/
theorem fetchData_error_iff_witness :
    ((fetchData initCompState
        (FetchEnv.responses true 200 false 500 (ParseOutcome.parseError "x"))).error ≠ none)
    ∧ (fetchData initCompState
        (FetchEnv.responses true 200 false 500 (ParseOutcome.parseError "x"))).financialData
        = initCompState.financialData
    ∧ render (fetchData initCompState
        (FetchEnv.responses true 200 false 500 (ParseOutcome.parseError "x")))
        = Screen.errorScreen (httpErrorMsg 200 500) := by
  have h := fetchData_error_iff initCompState
    (FetchEnv.responses true 200 false 500 (ParseOutcome.parseError "x"))
  refine ⟨h.1.mpr rfl, (h.2.1 rfl).1, h.2.2.1 (httpErrorMsg 200 500) (by decide)⟩

/-- C3 counterexample: from an error state, a retry whose single request
succeeds still leaves the error state set (it is never cleared), leaves the
daily-data payload unrestored, and keeps the error screen on display
instead of the overview; the retry also issues one request, not the pair. -/
theorem retry_keeps_error_counterexample :
    ((fetchFinancialData
        { financialData := none, dailyData := none, loading := false,
          error := some "HTTP error! financial: 500, daily: 500" }
        (RetryEnv.response true (Except.ok sampleFinancialData))).error ≠ none)
    ∧ render (fetchFinancialData
        { financialData := none, dailyData := none, loading := false,
          error := some "HTTP error! financial: 500, daily: 500" }
        (RetryEnv.response true (Except.ok sampleFinancialData)))
        ≠ Screen.content sampleFinancialData
    ∧ (fetchFinancialData
        { financialData := none, dailyData := none, loading := false,
          error := some "HTTP error! financial: 500, daily: 500" }
        (RetryEnv.response true (Except.ok sampleFinancialData))).dailyData = none
    ∧ (retryRequests (some 2024) 2025).length ≠ 2 := by
  refine ⟨?_, ?_, rfl, by decide⟩
  · simp [fetchFinancialData]
  · simp [fetchFinancialData, render]

/-- C3 amended: the retry button re-issues only the financial-overview
request for the chosen year; when that request succeeds the
financial-overview payload is replaced by the new one, but the daily-data
payload and the error state are left unchanged and loading ends false, so
if an error was set before the retry the error screen remains displayed. -/
theorem retry_success_behavior (s : CompState) (targetYear : Option Int)
    (currentYear : Int) (data : FinancialData) :
    retryRequests targetYear currentYear =
      [ { method := Method.get,
          url := financialOverviewUrl (retryYear targetYear currentYear) } ]
    ∧ (retryRequests targetYear currentYear).length = 1
    ∧ (fetchFinancialData s (RetryEnv.response true (Except.ok data))).financialData
        = some data
    ∧ (fetchFinancialData s (RetryEnv.response true (Except.ok data))).dailyData
        = s.dailyData
    ∧ (fetchFinancialData s (RetryEnv.response true (Except.ok data))).error = s.error
    ∧ (fetchFinancialData s (RetryEnv.response true (Except.ok data))).loading = false
    ∧ (∀ msg, s.error = some msg →
        render (fetchFinancialData s (RetryEnv.response true (Except.ok data)))
          = Screen.errorScreen msg) := by
  refine ⟨rfl, rfl, ?_, ?_, ?_, ?_, ?_⟩
  · simp [fetchFinancialData]
  · simp [fetchFinancialData]
  · simp [fetchFinancialData]
  · simp [fetchFinancialData]
  · intro msg hmsg
    simp [fetchFinancialData, render, hmsg]

/-- C3 witness: the amended theorem applied at a concrete error state and a
concrete successful retry. -/
theorem retry_success_behavior_witness :
    render (fetchFinancialData
        { financialData := none, dailyData := none, loading := false,
          error := some "boom" }
        (RetryEnv.response true (Except.ok sampleFinancialData)))
      = Screen.errorScreen "boom" := by
  have h := retry_success_behavior
    { financialData := none, dailyData := none, loading := false, error := some "boom" }
    (some 2024) 2025 sampleFinancialData
  exact h.2.2.2.2.2.2 "boom" rfl

/-- C4: for a day cell with nonnegative daily income and expense, when the
total is positive the computed ratios are the exact quotients, both lie in
[0, 1] and sum to exactly 1, and the bar heights are the ratios scaled by
100; when the total is zero both ratios are 0 and the guarded branch takes
the constant, performing no division. -/
theorem heatmap_cell_ratios (i e : Rat) (hi : 0 ≤ i) (he : 0 ≤ e) :
    (i + e > 0 →
      incomeRatio i e = i / (i + e)
      ∧ expenseRatio i e = e / (i + e)
      ∧ 0 ≤ incomeRatio i e ∧ incomeRatio i e ≤ 1
      ∧ 0 ≤ expenseRatio i e ∧ expenseRatio i e ≤ 1
      ∧ incomeRatio i e + expenseRatio i e = 1)
    ∧ (i + e = 0 → incomeRatio i e = 0 ∧ expenseRatio i e = 0)
    ∧ incomeBarHeightPct i e = incomeRatio i e * 100
    ∧ expenseBarHeightPct i e = expenseRatio i e * 100 := by
  refine ⟨?_, ?_, rfl, rfl⟩
  · intro hpos
    have hne : i + e ≠ 0 := ne_of_gt hpos
    have hir : incomeRatio i e = i / (i + e) := by
      simp [incomeRatio, hpos]
    have her : expenseRatio i e = e / (i + e) := by
      simp [expenseRatio, hpos]
    refine ⟨hir, her, ?_, ?_, ?_, ?_, ?_⟩
    · rw [hir]; exact div_nonneg hi (le_of_lt hpos)
    · rw [hir]
      exact (div_le_one hpos).mpr (le_add_of_nonneg_right he)
    · rw [her]; exact div_nonneg he (le_of_lt hpos)
    · rw [her]
      exact (div_le_one hpos).mpr (le_add_of_nonneg_left hi)
    · rw [hir, her, div_add_div_same, div_self hne]
  · intro hzero
    constructor <;> simp [incomeRatio, expenseRatio, hzero]

/-- C4 witness: the theorem applied at income 1, expense 3. -/
theorem heatmap_cell_ratios_witness :
    incomeRatio 1 3 = 1 / (1 + 3) ∧ expenseRatio 1 3 = 3 / (1 + 3)
    ∧ incomeRatio 1 3 + expenseRatio 1 3 = 1 := by
  have h := (heatmap_cell_ratios 1 3 (by norm_num) (by norm_num)).1 (by norm_num)
  exact ⟨h.1, h.2.1, h.2.2.2.2.2.2⟩

/-- C5: from the initial page index 0, every sequence of wheel and arrow
events keeps the page index within {0, ..., pages.length - 1} with
pages.length = 2; a down request steps by exactly +1 only below the last
page, an up request by exactly -1 only above page 0, any other event leaves
the state unchanged, and every transition writes the string form of the new
index to the sessionStorage slot. -/
theorem nav_state_machine (storage0 : Option String) (evs : List NavEvent) :
    pages.length = 2
    ∧ 0 ≤ (navRun storage0 evs).currentPage
    ∧ (navRun storage0 evs).currentPage ≤ (pages.length : Int) - 1
    ∧ (∀ s e, isDownEvent e = true → s.currentPage < (pages.length : Int) - 1 →
        navStep s e =
          { currentPage := s.currentPage + 1,
            storage := some (toString (s.currentPage + 1)) })
    ∧ (∀ s e, isUpEvent e = true → s.currentPage > 0 →
        navStep s e =
          { currentPage := s.currentPage - 1,
            storage := some (toString (s.currentPage - 1)) })
    ∧ (∀ s e, ¬ ((isDownEvent e = true ∧ s.currentPage < (pages.length : Int) - 1) ∨
                 (isUpEvent e = true ∧ s.currentPage > 0)) →
        navStep s e = s) := by
  have hb := navFold_bounds evs (navInit storage0) (by simp [navInit]) (by simp [navInit])
  refine ⟨rfl, hb.1, ?_, navStep_down, navStep_up, navStep_other⟩
  rw [pages_length_int]
  exact hb.2

/-- C5 witness: a single positive wheel step from page 0 lands on page 1
(in bounds) and writes "1" to storage. -/
theorem nav_state_machine_witness :
    0 ≤ (navRun none [NavEvent.wheel 1]).currentPage
    ∧ navStep { currentPage := 0, storage := none } (NavEvent.wheel 1)
        = { currentPage := 1, storage := some "1" } := by
  refine ⟨(nav_state_machine none [NavEvent.wheel 1]).2.1, ?_⟩
  have h := (nav_state_machine none []).2.2.2.1
    { currentPage := 0, storage := none } (NavEvent.wheel 1) (by decide) (by decide)
  exact h.trans (by decide)

/-- C6 counterexample: the claim says the retry helper uses the year passed
to it, but a passed year of 0 is falsy in `targetYear || default`, so the
helper contacts the endpoint with the default year (the previous calendar
year) instead of year 0. -/
theorem retry_year_zero_counterexample :
    retryYear (some 0) 2025 = 2024
    ∧ retryRequests (some 0) 2025
        = [ { method := Method.get, url := financialOverviewUrl 2024 } ]
    ∧ financialOverviewUrl 2024 ≠ financialOverviewUrl 0 := by
  refine ⟨by decide, by decide, by decide⟩

/-- C6 amended: every request of the component is a GET to one of exactly
the two endpoints, each carrying a single year parameter; the per-selection
pair uses the selected year; the retry helper uses the year passed to it
when that year is nonzero, and defaults to the previous calendar year when
no year is given or the given year is 0 (a JavaScript falsy value). -/
theorem requests_shape (selectedYear currentYear : Int) (targetYear : Option Int) :
    (∀ r ∈ fetchRequests selectedYear, r.method = Method.get)
    ∧ fetchRequests selectedYear =
        [ { method := Method.get, url := financialOverviewUrl selectedYear },
          { method := Method.get, url := dailyDataUrl selectedYear } ]
    ∧ (∀ r ∈ retryRequests targetYear currentYear, r.method = Method.get)
    ∧ (∀ y, targetYear = some y → y ≠ 0 →
        retryRequests targetYear currentYear =
          [ { method := Method.get, url := financialOverviewUrl y } ])
    ∧ (targetYear = none ∨ targetYear = some 0 →
        retryRequests targetYear currentYear =
          [ { method := Method.get, url := financialOverviewUrl (currentYear - 1) } ])
    ∧ (∀ r, r ∈ fetchRequests selectedYear ∨ r ∈ retryRequests targetYear currentYear →
        ∃ y, r.url = financialOverviewUrl y ∨ r.url = dailyDataUrl y) := by
  refine ⟨?_, rfl, ?_, ?_, ?_, ?_⟩
  · intro r hr
    simp only [fetchRequests, List.mem_cons, List.mem_singleton] at hr
    rcases hr with h | h | h <;> simp_all
  · intro r hr
    simp only [retryRequests, List.mem_singleton] at hr
    simp [hr]
  · intro y hy hy0
    subst hy
    simp [retryRequests, retryYear, hy0]
  · rintro (h | h) <;> subst h <;> simp [retryRequests, retryYear]
  · intro r hr
    rcases hr with h | h
    · simp only [fetchRequests, List.mem_cons, List.mem_singleton] at h
      rcases h with h | h | h
      · exact ⟨selectedYear, Or.inl (by simp [h])⟩
      · exact ⟨selectedYear, Or.inr (by simp [h])⟩
      · cases h
    · simp only [retryRequests, List.mem_singleton] at h
      exact ⟨retryYear targetYear currentYear, Or.inl (by simp [h])⟩

/-- C6 witness: the amended theorem applied at concrete years, covering the
nonzero-target and the zero-target retry paths. -/
theorem requests_shape_witness :
    retryRequests (some 2023) 2025
      = [ { method := Method.get, url := financialOverviewUrl 2023 } ]
    ∧ retryRequests (some 0) 2025
      = [ { method := Method.get, url := financialOverviewUrl 2024 } ] := by
  have h1 := (requests_shape 2025 2025 (some 2023)).2.2.2.1 2023 rfl (by decide)
  have h2 := (requests_shape 2025 2025 (some 0)).2.2.2.2.1 (Or.inr rfl)
  exact ⟨h1, h2.trans (by decide)⟩

/-- C7 helper: the effect issues one request batch per change of the
dependency value. -/
theorem effectFetchCalls_length (ys : List Int) :
    ∀ prev, (effectFetchCalls prev ys).length = countYearChanges prev ys := by
  induction ys with
  | nil => intro prev; rfl
  | cons y ys ih =>
      intro prev
      simp only [effectFetchCalls, countYearChanges]
      split_ifs with h
      · simp [ih]
      · simp [ih]; omega

/-- C7 helper: every batch the effect issues is the request pair of some
year. -/
theorem effectFetchCalls_mem (ys : List Int) :
    ∀ prev c, c ∈ effectFetchCalls prev ys → ∃ y, c = fetchRequests y := by
  induction ys with
  | nil => intro prev c hc; cases hc
  | cons y ys ih =>
      intro prev c hc
      simp only [effectFetchCalls] at hc
      split_ifs at hc with h
      · exact ih _ c hc
      · rcases List.mem_cons.mp hc with h1 | h1
        · exact ⟨y, h1⟩
        · exact ih _ c h1

/-- C7: each change of the selected year triggers exactly one new fetch of
the payload pair (two requests); a successful run replaces the previous
payloads entirely — the resulting component state is fully determined by
the parsed bodies, discarding the old payloads — and the run touches only
the four FinancialOverview state fields, leaving the navigation state of
the surrounding page unchanged. -/
theorem fetch_refresh_frame :
    (∀ y, (fetchRequests y).length = 2)
    ∧ (∀ prev ys, (effectFetchCalls prev ys).length = countYearChanges prev ys)
    ∧ (∀ prev ys c, c ∈ effectFetchCalls prev ys →
        ∃ y, c = fetchRequests y ∧ c.length = 2)
    ∧ (∀ s finStatus dailyStatus fin daily,
        fetchData s (FetchEnv.responses true finStatus true dailyStatus
            (ParseOutcome.parsed fin daily)) =
          { financialData := some fin, dailyData := some daily,
            loading := false, error := none })
    ∧ (∀ a env, (appFetchData a env).nav = a.nav) := by
  refine ⟨fun y => rfl, fun prev ys => effectFetchCalls_length ys prev, ?_, ?_, fun a env => rfl⟩
  · intro prev ys c hc
    obtain ⟨y, hy⟩ := effectFetchCalls_mem ys prev c hc
    exact ⟨y, hy, by simp [hy, fetchRequests]⟩
  · intro s finStatus dailyStatus fin daily
    simp [fetchData]

/-- C7 witness: a second successful fetch for a new year fully replaces the
payloads fetched for the old year, and two renders with distinct years
issue exactly two request pairs. -/
theorem fetch_refresh_frame_witness :
    fetchData
        (fetchData initCompState
          (FetchEnv.responses true 200 true 200
            (ParseOutcome.parsed sampleFinancialData { daily_data := [] })))
        (FetchEnv.responses true 200 true 200
          (ParseOutcome.parsed
            { sampleFinancialData with annual_total_income := 7 }
            { daily_data := [] }))
      = { financialData := some { sampleFinancialData with annual_total_income := 7 },
          dailyData := some { daily_data := [] }, loading := false, error := none }
    ∧ (effectFetchCalls none [2024, 2025]).length = countYearChanges none [2024, 2025] := by
  refine ⟨?_, (fetch_refresh_frame.2.1 none [2024, 2025])⟩
  exact fetch_refresh_frame.2.2.2.1 _ 200 200
    { sampleFinancialData with annual_total_income := 7 } { daily_data := [] }

/-- The decimal digit characters are digit characters. -/
theorem digitChar_isDigit : ∀ k < 10, (Nat.digitChar k).isDigit = true := by decide

/-- C8: the displayed annual total income, total expense and net savings
strings are `formatCurrency` of the corresponding payload fields;
`formatCurrency` is a deterministic function of the amount (equal amounts
display as identical strings) and its output always ends with a decimal
point followed by exactly two digit characters. -/
theorem displayed_totals_format (fd : FinancialData) (a b : Rat) :
    displayedAnnualIncome fd = formatCurrency fd.annual_total_income
    ∧ displayedAnnualExpense fd = formatCurrency fd.annual_total_expense
    ∧ displayedNetSavings fd = formatCurrency fd.annual_net_savings
    ∧ (a = b → formatCurrency a = formatCurrency b)
    ∧ (∃ p d1 d2, formatCurrency a = p ++ "." ++ String.mk [d1, d2]
        ∧ d1.isDigit = true ∧ d2.isDigit = true) := by
  refine ⟨rfl, rfl, rfl, fun h => by rw [h], ?_⟩
  refine ⟨(if roundHalfExpand (a * 100) < 0 then "-" else "") ++ "¥"
      ++ groupThousands (toString ((roundHalfExpand (a * 100)).natAbs / 100)),
    Nat.digitChar ((roundHalfExpand (a * 100)).natAbs % 100 / 10 % 10),
    Nat.digitChar ((roundHalfExpand (a * 100)).natAbs % 100 % 10),
    rfl, ?_, ?_⟩
  · exact digitChar_isDigit _ (by omega)
  · exact digitChar_isDigit _ (by omega)

/-- C8 witness: the theorem applied at the sample payload; the income field
100 displays as the formatted string of 100 with two fraction digits. -/
theorem displayed_totals_format_witness :
    displayedAnnualIncome sampleFinancialData = formatCurrency 100
    ∧ formatCurrency 100 = formatCurrency 100 := by
  have h := displayed_totals_format sampleFinancialData 100 100
  exact ⟨h.1, h.2.2.2.1 rfl⟩

/-- The month-label computation, evaluated over all 53 week columns and all
twelve months of 2025: a column is labeled with a month exactly when its
week contains that month's first day in 2025. -/
theorem monthLabel_spec : ∀ w < 53, ∀ m ≤ 12, 1 ≤ m →
    ((monthLabelRow 0 w = toString m ++ "月") ↔ weekContainsFirstOfMonth2025 w m) := by
  decide

/-- C9: the month-label row is computed from the fixed year 2025 — its
value does not depend on the `selectedYear` prop — and a week column is
labeled with month `m` exactly when that week contains the first day of
month `m` of 2025. -/
theorem month_labels_fixed_2025 (y1 y2 : Int) :
    ∀ w < 53,
      monthLabelRow y1 w = monthLabelRow y2 w
      ∧ ∀ m ≤ 12, 1 ≤ m →
          ((monthLabelRow y1 w = toString m ++ "月")
            ↔ weekContainsFirstOfMonth2025 w m) := by
  intro w hw
  have hind : monthLabelRow y1 w = monthLabelRow 0 w := rfl
  refine ⟨rfl, ?_⟩
  intro m hm hm1
  rw [hind]
  exact monthLabel_spec w hw m hm hm1

/-- C9 witness: with any two selected years, week column 4 carries the
February label because it contains 2025-02-01. -/
theorem month_labels_fixed_2025_witness :
    monthLabelRow 5 4 = monthLabelRow 7 4
    ∧ (monthLabelRow 5 4 = toString (2 : Nat) ++ "月"
        ↔ weekContainsFirstOfMonth2025 4 2) := by
  have h := month_labels_fixed_2025 5 7 4 (by norm_num)
  exact ⟨h.1, h.2 2 (by norm_num) (by norm_num)⟩

/-- C10 helper: for every page index, the render is the welcome page unless
the index selects 'financial-overview', which happens exactly at index 1. -/
theorem renderCurrentPage_char (i : JsNum) :
    (pageAt i ≠ some "financial-overview" → renderCurrentPage i = Page.welcomePage)
    ∧ (renderCurrentPage i = Page.financialOverviewPage ↔ i = JsNum.num 1) := by
  cases i with
  | nan => exact ⟨fun _ => rfl, by simp [renderCurrentPage, pageAt]⟩
  | num n =>
      by_cases hn : 0 ≤ n
      · have h3 : n = 0 ∨ n = 1 ∨ 2 ≤ n := by omega
        rcases h3 with h | h | h
        · subst h
          exact ⟨fun _ => by decide, by decide⟩
        · subst h
          refine ⟨fun hne => absurd ?_ hne, by decide⟩
          decide
        · have hnone : pageAt (JsNum.num n) = none := by
            simp only [pageAt, if_pos hn]
            apply List.getElem?_eq_none
            simp only [pages, List.length_cons, List.length_nil]
            omega
          refine ⟨fun _ => by simp [renderCurrentPage, hnone], ?_⟩
          simp only [renderCurrentPage, hnone]
          constructor
          · intro hcontra; cases hcontra
          · intro h1; injection h1 with h1; omega
      · have hnone : pageAt (JsNum.num n) = none := by
          simp only [pageAt, if_neg hn]
        refine ⟨fun _ => by simp [renderCurrentPage, hnone], ?_⟩
        simp only [renderCurrentPage, hnone]
        constructor
        · intro hcontra; cases hcontra
        · intro h1; injection h1 with h1; omega

/-- C10: page rendering is total in the page index — for every value the
`currentPage` initializer can produce from a (possibly corrupted)
sessionStorage entry, and indeed for every index value, `renderCurrentPage`
returns a page; it returns the welcome page whenever the index does not
select 'financial-overview', and it selects the financial overview exactly
at index 1. -/
theorem renderCurrentPage_total (saved : Option String) (i : JsNum) :
    (renderCurrentPage (initCurrentPage saved) = Page.welcomePage ∨
      renderCurrentPage (initCurrentPage saved) = Page.financialOverviewPage)
    ∧ (pageAt i ≠ some "financial-overview" → renderCurrentPage i = Page.welcomePage)
    ∧ (renderCurrentPage i = Page.financialOverviewPage ↔ i = JsNum.num 1) := by
  have hc := renderCurrentPage_char i
  refine ⟨?_, hc.1, hc.2⟩
  cases hval : renderCurrentPage (initCurrentPage saved) with
  | welcomePage => exact Or.inl rfl
  | financialOverviewPage => exact Or.inr rfl

/-- C10 witness: an out-of-range index renders the welcome page, and a
corrupted entry parses to NaN and also renders the welcome page. -/
theorem renderCurrentPage_total_witness :
    renderCurrentPage (JsNum.num 99) = Page.welcomePage
    ∧ renderCurrentPage (initCurrentPage (some "garbage")) = Page.welcomePage := by
  refine ⟨(renderCurrentPage_total none (JsNum.num 99)).2.1 (by decide), ?_⟩
  exact (renderCurrentPage_total (some "garbage") (initCurrentPage (some "garbage"))).2.1
    (by decide)

end Yimu
